import Mathlib

/-!
Shallow embedding of `src/monitors.py` (flower-prometheus-exporter).

The program runs one `QueueMonitorThread` and one `WorkerMonitorThread` per
monitored flower host.  Each thread, at construction time, resets the
previously known label combinations of its gauge families to zero
(`setup_metrics`), and then runs an unbounded fetch / parse / publish / sleep
loop (`get_metrics`).  The publish step (`convert_data_to_prometheus`)
translates the decoded JSON payload into absolute `set` writes on three
prometheus gauge families:

  * `celery_tasks_by_queue{flower, queue}`
  * `celery_workers{flower, status}`
  * `celery_tasks_by_worker{flower, worker, status}`

The registry is modelled as a partial map from label sets to gauge values;
a publish step is modelled as the list of writes it performs (in program
order) together with an optional fault (`KeyError`) raised by a required
dictionary access, in which case the writes performed before the faulting
access have already been applied.
-/

namespace Monitors

/-- A decoded scalar JSON value (the result of `data.json()` in the source;
the fields `monitors.py` consumes are scalars). -/
inductive JVal where
  | null : JVal
  | bool (b : Bool) : JVal
  | num (n : Int) : JVal
  | str (s : String) : JVal
deriving DecidableEq, Repr

/-- Python truthiness of a decoded JSON value, as used by `if w_info['status']:`. -/
def truthy : JVal → Bool
  | .null => false
  | .bool b => b
  | .num n => n != 0
  | .str s => s != ""

/-- A decoded JSON object, e.g. one `q_info` or `w_info` entry. -/
abbrev JObj := List (String × JVal)

/-- Python `d.get(k)` / `d[k]`: `none` models a missing key (`d[k]` raises
`KeyError` there; `d.get(k, default)` yields the default). -/
def dget (d : JObj) (k : String) : Option JVal :=
  (d.find? (fun kv => kv.1 == k)).map (fun kv => kv.2)

/-- An exception propagating out of `convert_data_to_prometheus`
(a `KeyError` on a required field). -/
inductive Fault where
  | keyError (key : String) : Fault
deriving DecidableEq, Repr

/-- A full label set of one of the three gauge families of `monitors.py`
(`celery_tasks_by_queue`, `celery_workers`, `celery_tasks_by_worker`).
Label values produced from payload fields are kept as JSON values. -/
inductive Labels where
  | queue (flower : String) (queue : JVal) : Labels
  | workers (flower : String) (status : String) : Labels
  | tasksWorker (flower : String) (worker : JVal) (status : String) : Labels
deriving DecidableEq, Repr

/-- The `flower` label carried by a label set. -/
def flowerOf : Labels → String
  | .queue flower _ => flower
  | .workers flower _ => flower
  | .tasksWorker flower _ _ => flower

/-- One `Gauge.labels(...).set(value)` call. -/
structure Write where
  labels : Labels
  value : JVal
deriving DecidableEq, Repr

/-- The prometheus registry: gauge series keyed by label set.  `none` means
the label combination has never been created. -/
abbrev Registry := Labels → Option JVal

/-- `Gauge.labels(l).set(v)`: absolute overwrite of one series. -/
def setG (reg : Registry) (l : Labels) (v : JVal) : Registry :=
  fun x => if x = l then some v else reg x

/-- Apply a list of writes in program order. -/
def applyWrites (reg : Registry) (ws : List Write) : Registry :=
  ws.foldl (fun r w => setG r w.labels w.value) reg

/-- Outcome of one `requests.get(self.endpoint)` call in `get_metrics`:
either a `requests.exceptions.ConnectionError`, or a response carrying an
HTTP status code and (already JSON-decoded) body. -/
inductive FetchResult (α : Type) where
  | connectionError : FetchResult α
  | response (status_code : Nat) (body : α) : FetchResult α

/-- What one iteration of the `while True` loop of `get_metrics` did:
the registry afterwards, the `time.sleep` duration taken, whether
`self.log.error` was called, and the exception (if any) propagating out of
`convert_data_to_prometheus`, which ends the loop. -/
structure CycleResult where
  registry : Registry
  sleepSeconds : Nat
  errorLogged : Bool
  fault : Option Fault

namespace MonitorThread

/-- One iteration of the `while True` loop in `MonitorThread.get_metrics`,
parameterized by the subclass's `convert_data_to_prometheus` (given as the
list of gauge writes it performs before returning or faulting, plus the
optional fault). -/
def cycle (convert : α → List Write × Option Fault)
    (fr : FetchResult α) (reg : Registry) : CycleResult :=
  match fr with
  | .connectionError => ⟨reg, 5, true, none⟩
  | .response status_code body =>
    if status_code != 200 then
      ⟨reg, 1, true, none⟩
    else
      let cw := convert body
      ⟨applyWrites reg cw.1, 1, false, cw.2⟩

/-- `MonitorThread.get_metrics` run over a finite prefix of fetch outcomes:
iterates `cycle`; an uncaught fault from the publish step terminates the
loop (and the thread), otherwise the loop continues. -/
def get_metrics (convert : α → List Write × Option Fault) :
    List (FetchResult α) → Registry → Registry × Option Fault
  | [], reg => (reg, none)
  | fr :: rest, reg =>
    let c := cycle convert fr reg
    match c.fault with
    | some f => (c.registry, some f)
    | none => get_metrics convert rest c.registry

end MonitorThread

/-- The decoded body of `GET {host}/api/queues/length`: a JSON object whose
`active_queues` key (when present) holds a list of queue-info objects. -/
structure QueuePayload where
  active_queues : Option (List JObj)

namespace QueueMonitorThread

/-- `QueueMonitorThread.setup_metrics`: for every existing sample of the
`celery_tasks_by_queue` family, set that label combination to 0. -/
def setup_metrics (reg : Registry) : Registry :=
  fun l =>
    match l with
    | .queue _ _ => if (reg l).isSome then some (.num 0) else reg l
    | _ => reg l

/-- `QueueMonitorThread.endpoint`. -/
def endpoint (flower_host : String) : String :=
  flower_host ++ "/api/queues/length"

/-- The `for q_info in ...` loop body of
`QueueMonitorThread.convert_data_to_prometheus`: one gauge set per entry at
`{flower: host, queue: q_info['name']}` with value `q_info['messages']`;
a missing `name` or `messages` key raises `KeyError` (no write for that
entry, earlier writes stand). -/
def convertQueueEntries (flower_host : String) :
    List JObj → List Write × Option Fault
  | [] => ([], none)
  | q_info :: rest =>
    match dget q_info "name" with
    | none => ([], some (.keyError "name"))
    | some nm =>
      match dget q_info "messages" with
      | none => ([], some (.keyError "messages"))
      | some msgs =>
        let r := convertQueueEntries flower_host rest
        (⟨.queue flower_host nm, msgs⟩ :: r.1, r.2)

/-- `QueueMonitorThread.convert_data_to_prometheus`:
`for q_info in data.get('active_queues', []): TASKS_QUEUE.labels(...).set(...)`. -/
def convert_data_to_prometheus (flower_host : String) (d : QueuePayload) :
    List Write × Option Fault :=
  convertQueueEntries flower_host (d.active_queues.getD [])

end QueueMonitorThread

/-- The decoded body of `GET {host}/dashboard?json=1`: a JSON object whose
`data` key (when present) holds a list of worker-info objects. -/
structure DashboardPayload where
  data : Option (List JObj)

namespace WorkerMonitorThread

/-- `WorkerMonitorThread.setup_metrics`: every existing sample of the
`celery_workers` and `celery_tasks_by_worker` families is set to 0. -/
def setup_metrics (reg : Registry) : Registry :=
  fun l =>
    match l with
    | .workers _ _ => if (reg l).isSome then some (.num 0) else reg l
    | .tasksWorker _ _ _ => if (reg l).isSome then some (.num 0) else reg l
    | _ => reg l

/-- `WorkerMonitorThread.endpoint`. -/
def endpoint (flower_host : String) : String :=
  flower_host ++ "/dashboard?json=1"

/-- The (payload key, status label) pairs of the seven
`TASKS_WORKER.labels(**common, status=...).set(w_info.get(..., 0))` calls,
in program order. -/
def counterKeys : List (String × String) :=
  [("task-received", "received"), ("task-started", "started"),
   ("task-failed", "failed"), ("task-retried", "retried"),
   ("task-succeeded", "succeeded"),
   ("processed", "processed"), ("active", "active")]

/-- The seven per-worker gauge writes for one `w_info` entry, each defaulting
to 0 when the payload field is absent. -/
def workerEntryWrites (flower_host : String) (hostname : JVal) (w_info : JObj) :
    List Write :=
  counterKeys.map
    (fun ks => ⟨.tasksWorker flower_host hostname ks.2, (dget w_info ks.1).getD (.num 0)⟩)

/-- The `for w_info in ...` loop of
`WorkerMonitorThread.convert_data_to_prometheus` with the running
`online` / `offline` accumulators, followed by the two `WORKERS` sets.
`w_info['hostname']` is accessed first (before the seven per-worker sets)
and `w_info['status']` after them, so a `KeyError` on `status` leaves that
entry's seven writes already performed. -/
def convertWorkerEntries (flower_host : String) :
    List JObj → Nat → Nat → List Write × Option Fault
  | [], online, offline =>
    ([⟨.workers flower_host "online", .num online⟩,
      ⟨.workers flower_host "offline", .num offline⟩], none)
  | w_info :: rest, online, offline =>
    match dget w_info "hostname" with
    | none => ([], some (.keyError "hostname"))
    | some hostname =>
      let cw := workerEntryWrites flower_host hostname w_info
      match dget w_info "status" with
      | none => (cw, some (.keyError "status"))
      | some st =>
        let r := convertWorkerEntries flower_host rest
          (if truthy st then online + 1 else online)
          (if truthy st then offline else offline + 1)
        (cw ++ r.1, r.2)

/-- `WorkerMonitorThread.convert_data_to_prometheus`: starts the accumulators
at `online, offline = 0, 0` and iterates `data.get('data', [])`. -/
def convert_data_to_prometheus (flower_host : String) (d : DashboardPayload) :
    List Write × Option Fault :=
  convertWorkerEntries flower_host (d.data.getD []) 0 0

end WorkerMonitorThread

/-- `QueueMonitorThread.__init__` followed by `run`: `setup_metrics` executes
once, before the fetch loop starts. -/
def runQueueMonitorThread (flower_host : String)
    (frs : List (FetchResult QueuePayload)) (reg : Registry) :
    Registry × Option Fault :=
  MonitorThread.get_metrics (QueueMonitorThread.convert_data_to_prometheus flower_host)
    frs (QueueMonitorThread.setup_metrics reg)

/-- `WorkerMonitorThread.__init__` followed by `run`: `setup_metrics` executes
once, before the fetch loop starts. -/
def runWorkerMonitorThread (flower_host : String)
    (frs : List (FetchResult DashboardPayload)) (reg : Registry) :
    Registry × Option Fault :=
  MonitorThread.get_metrics (WorkerMonitorThread.convert_data_to_prometheus flower_host)
    frs (WorkerMonitorThread.setup_metrics reg)

/-- One of the two poller kinds instantiated per monitored host. -/
inductive PollerKind where
  | queue : PollerKind
  | worker : PollerKind

/-- The writes-and-fault of one publish step of either poller, on a payload
given as the optional list under its single relevant top-level key. -/
def pollerWrites : PollerKind → String → Option (List JObj) → List Write × Option Fault
  | .queue, flower_host, p => QueueMonitorThread.convert_data_to_prometheus flower_host ⟨p⟩
  | .worker, flower_host, p => WorkerMonitorThread.convert_data_to_prometheus flower_host ⟨p⟩

/-! ### Helper notions for reasoning about write lists -/

/-- The value of the last write to label set `l` in `ws`, if any. -/
def writeMap : List Write → Labels → Option JVal
  | [], _ => none
  | w :: ws, l =>
    match writeMap ws l with
    | some v => some v
    | none => if w.labels = l then some w.value else none

/-- `orDefault o d` is `o` when present, else `d`. -/
def orDefault (o d : Option JVal) : Option JVal :=
  match o with
  | some v => some v
  | none => d

/-- The value the loop branches on: `w_info['status']` (for well-formed
entries, the field is present and the default is irrelevant). -/
def statusOf (w_info : JObj) : JVal := (dget w_info "status").getD .null

/-- Number of entries whose `status` is truthy. -/
def onCount (es : List JObj) : Nat :=
  (es.filter (fun w => truthy (statusOf w))).length

/-- Number of entries whose `status` is falsy. -/
def offCount (es : List JObj) : Nat :=
  (es.filter (fun w => !truthy (statusOf w))).length

/-- An entry is well-formed when both required fields are present. -/
def wfWorker (e : JObj) : Prop :=
  (dget e "hostname").isSome ∧ (dget e "status").isSome

instance (e : JObj) : Decidable (wfWorker e) := by unfold wfWorker; infer_instance

/-- Whether a write targets the `celery_tasks_by_worker` family. -/
def isTasksWorkerWrite (w : Write) : Bool :=
  match w.labels with
  | .tasksWorker _ _ _ => true
  | _ => false

/-- A concrete registry state used to instantiate theorems about arbitrary
prior registry contents: one existing series in each gauge family. -/
def sampleRegistry : Registry :=
  fun l =>
    if l = .queue "http://fl1" (.str "celery") then some (.num 5)
    else if l = .workers "http://fl1" "online" then some (.num 2)
    else if l = .tasksWorker "http://fl1" (.str "w1") "failed" then some (.num 9)
    else none

theorem applyWrites_nil (reg : Registry) : applyWrites reg [] = reg := rfl

theorem applyWrites_cons (reg : Registry) (w : Write) (ws : List Write) :
    applyWrites reg (w :: ws) = applyWrites (setG reg w.labels w.value) ws := rfl

theorem applyWrites_append (reg : Registry) (ws1 ws2 : List Write) :
    applyWrites reg (ws1 ++ ws2) = applyWrites (applyWrites reg ws1) ws2 :=
  List.foldl_append _ _ _ _

/-- Reading a series after a batch of writes: the last write to that label
set wins; a label set never written keeps its prior value. -/
theorem applyWrites_lookup (ws : List Write) : ∀ (reg : Registry) (l : Labels),
    applyWrites reg ws l = orDefault (writeMap ws l) (reg l) := by
  induction ws with
  | nil => intro reg l; rfl
  | cons w ws ih =>
    intro reg l
    rw [applyWrites_cons, ih]
    show orDefault (writeMap ws l) (setG reg w.labels w.value l) =
      orDefault (writeMap (w :: ws) l) (reg l)
    cases hwm : writeMap ws l with
    | some v => simp [writeMap, hwm, orDefault]
    | none =>
      by_cases h : w.labels = l
      · subst h; simp [writeMap, hwm, orDefault, setG]
      · have h2 : ¬ l = w.labels := fun hh => h hh.symm
        simp [writeMap, hwm, orDefault, setG, h, h2]

/-- A label set written by no element of `ws` is absent from `writeMap`. -/
theorem writeMap_eq_none (ws : List Write) (l : Labels)
    (h : ∀ w ∈ ws, w.labels ≠ l) : writeMap ws l = none := by
  induction ws with
  | nil => rfl
  | cons w ws ih =>
    have hw : w.labels ≠ l := h w (List.mem_cons_self _ _)
    have hrest : writeMap ws l = none := ih (fun x hx => h x (List.mem_cons_of_mem _ hx))
    simp [writeMap, hrest, hw]

/-- A label set present in `writeMap` was written by some element of `ws`. -/
theorem writeMap_isSome_mem (ws : List Write) (l : Labels)
    (h : writeMap ws l ≠ none) : ∃ w ∈ ws, w.labels = l := by
  induction ws with
  | nil => exact absurd rfl h
  | cons w ws ih =>
    by_cases hrest : writeMap ws l = none
    · by_cases hl : w.labels = l
      · exact ⟨w, List.mem_cons_self _ _, hl⟩
      · exfalso; apply h; simp [writeMap, hrest, hl]
    · obtain ⟨x, hx, hxl⟩ := ih hrest
      exact ⟨x, List.mem_cons_of_mem _ hx, hxl⟩

/-- Applying the same batch of absolute-set writes twice is the same as
applying it once. -/
theorem applyWrites_idem (reg : Registry) (ws : List Write) :
    applyWrites (applyWrites reg ws) ws = applyWrites reg ws := by
  funext l
  rw [applyWrites_lookup, applyWrites_lookup]
  cases writeMap ws l <;> rfl

/-- Two batches of writes touching label sets with different `flower` labels
commute. -/
theorem applyWrites_comm_of_flower (reg : Registry) (ws1 ws2 : List Write)
    (h1 : String) (h2 : String) (hne : h1 ≠ h2)
    (hf1 : ∀ w ∈ ws1, flowerOf w.labels = h1)
    (hf2 : ∀ w ∈ ws2, flowerOf w.labels = h2) :
    applyWrites (applyWrites reg ws1) ws2 = applyWrites (applyWrites reg ws2) ws1 := by
  funext l
  rw [applyWrites_lookup, applyWrites_lookup, applyWrites_lookup, applyWrites_lookup]
  cases hm1 : writeMap ws1 l with
  | none => rfl
  | some v1 =>
    cases hm2 : writeMap ws2 l with
    | none => rfl
    | some v2 =>
      exfalso
      obtain ⟨w1, hw1, hl1⟩ := writeMap_isSome_mem ws1 l (by simp [hm1])
      obtain ⟨w2, hw2, hl2⟩ := writeMap_isSome_mem ws2 l (by simp [hm2])
      exact hne ((hf1 w1 hw1).symm.trans (hl1.trans hl2.symm ▸ hf2 w2 hw2))

/-! ### Shape of the writes produced by each publish step -/

/-- Every write of the queue publish step targets
`celery_tasks_by_queue{flower: flower_host, queue: <name of some entry>}`. -/
theorem convertQueueEntries_shape (flower_host : String) :
    ∀ (es : List JObj) (w : Write),
      w ∈ (QueueMonitorThread.convertQueueEntries flower_host es).1 →
      ∃ e ∈ es, ∃ nm, dget e "name" = some nm ∧ w.labels = .queue flower_host nm := by
  intro es
  induction es with
  | nil => intro w hw; simp [QueueMonitorThread.convertQueueEntries] at hw
  | cons q rest ih =>
    intro w hw
    simp only [QueueMonitorThread.convertQueueEntries] at hw
    cases hq : dget q "name" with
    | none => rw [hq] at hw; simp at hw
    | some nm =>
      rw [hq] at hw
      cases hm : dget q "messages" with
      | none => rw [hm] at hw; simp at hw
      | some ms =>
        rw [hm] at hw
        simp only [List.mem_cons] at hw
        rcases hw with h | h
        · exact ⟨q, List.mem_cons_self _ _, nm, hq, by rw [h]⟩
        · obtain ⟨e, he, nm2, hnm, hl⟩ := ih w h
          exact ⟨e, List.mem_cons_of_mem _ he, nm2, hnm, hl⟩

/-- Every write of the worker publish step targets either
`celery_workers{flower: flower_host, ...}` or
`celery_tasks_by_worker{flower: flower_host, worker: <hostname of some entry>, ...}`. -/
theorem convertWorkerEntries_shape (flower_host : String) :
    ∀ (es : List JObj) (online offline : Nat) (w : Write),
      w ∈ (WorkerMonitorThread.convertWorkerEntries flower_host es online offline).1 →
      (∃ s, w.labels = .workers flower_host s) ∨
      ∃ e ∈ es, ∃ hn s, dget e "hostname" = some hn ∧
        w.labels = .tasksWorker flower_host hn s := by
  intro es
  induction es with
  | nil =>
    intro onl ofl w hw
    simp only [WorkerMonitorThread.convertWorkerEntries, List.mem_cons,
      List.mem_singleton] at hw
    rcases hw with h | h | h
    · exact Or.inl ⟨"online", by rw [h]⟩
    · exact Or.inl ⟨"offline", by rw [h]⟩
    · simp at h
  | cons e rest ih =>
    intro onl ofl w hw
    simp only [WorkerMonitorThread.convertWorkerEntries] at hw
    cases hh : dget e "hostname" with
    | none => rw [hh] at hw; simp at hw
    | some hn =>
      rw [hh] at hw
      cases hs : dget e "status" with
      | none =>
        rw [hs] at hw
        simp only [WorkerMonitorThread.workerEntryWrites, List.mem_map] at hw
        obtain ⟨ks, hks, hmap⟩ := hw
        exact Or.inr ⟨e, List.mem_cons_self _ _, hn, ks.2, hh, by rw [← hmap]⟩
      | some st =>
        rw [hs] at hw
        simp only [List.mem_append] at hw
        rcases hw with h | h
        · simp only [WorkerMonitorThread.workerEntryWrites, List.mem_map] at h
          obtain ⟨ks, hks, hmap⟩ := h
          exact Or.inr ⟨e, List.mem_cons_self _ _, hn, ks.2, hh, by rw [← hmap]⟩
        · rcases ih _ _ w h with h1 | ⟨e2, he2, hn2, s2, hd, hl⟩
          · exact Or.inl h1
          · exact Or.inr ⟨e2, List.mem_cons_of_mem _ he2, hn2, s2, hd, hl⟩

/-- Every write of either poller's publish step carries the poller's own
host as the `flower` label. -/
theorem pollerWrites_flower (k : PollerKind) (flower_host : String)
    (p : Option (List JObj)) :
    ∀ w ∈ (pollerWrites k flower_host p).1, flowerOf w.labels = flower_host := by
  intro w hw
  cases k with
  | queue =>
    obtain ⟨e, _, nm, _, hl⟩ := convertQueueEntries_shape flower_host _ w hw
    rw [hl]; rfl
  | worker =>
    rcases convertWorkerEntries_shape flower_host _ 0 0 w hw with
      ⟨s, hl⟩ | ⟨e, _, hn, s, _, hl⟩ <;> (rw [hl]; rfl)

/-! ### Counting online and offline workers -/

theorem onCount_cons (e : JObj) (rest : List JObj) :
    onCount (e :: rest) = (if truthy (statusOf e) then 1 else 0) + onCount rest := by
  simp only [onCount, List.filter_cons]
  cases truthy (statusOf e) <;> simp <;> omega

theorem offCount_cons (e : JObj) (rest : List JObj) :
    offCount (e :: rest) = (if truthy (statusOf e) then 0 else 1) + offCount rest := by
  simp only [offCount, List.filter_cons]
  cases truthy (statusOf e) <;> simp <;> omega

theorem onCount_add_offCount (es : List JObj) :
    onCount es + offCount es = es.length := by
  induction es with
  | nil => rfl
  | cons e rest ih =>
    rw [onCount_cons, offCount_cons]
    cases truthy (statusOf e) <;> simp <;> omega

/-- On a well-formed entry list the worker loop completes without fault, and
the two `celery_workers` gauges read the accumulators plus the number of
truthy- resp. falsy-`status` entries. -/
theorem convertWorkerEntries_ok (flower_host : String) :
    ∀ (es : List JObj), (∀ e ∈ es, wfWorker e) →
    ∀ (online offline : Nat) (reg : Registry),
      (WorkerMonitorThread.convertWorkerEntries flower_host es online offline).2 = none ∧
      applyWrites reg (WorkerMonitorThread.convertWorkerEntries flower_host es online offline).1
        (.workers flower_host "online") = some (.num (online + onCount es)) ∧
      applyWrites reg (WorkerMonitorThread.convertWorkerEntries flower_host es online offline).1
        (.workers flower_host "offline") = some (.num (offline + offCount es)) := by
  intro es
  induction es with
  | nil =>
    intro _ onl ofl reg
    refine ⟨rfl, ?_, ?_⟩ <;>
      simp [WorkerMonitorThread.convertWorkerEntries, applyWrites, setG, onCount, offCount]
  | cons e rest ih =>
    intro hwf onl ofl reg
    obtain ⟨hhs, hss⟩ := hwf e (List.mem_cons_self _ _)
    obtain ⟨hn, hh⟩ := Option.isSome_iff_exists.mp hhs
    obtain ⟨st, hs⟩ := Option.isSome_iff_exists.mp hss
    have hwfr : ∀ x ∈ rest, wfWorker x := fun x hx => hwf x (List.mem_cons_of_mem _ hx)
    obtain ⟨hf, hon, hoff⟩ := ih hwfr (if truthy st then onl + 1 else onl)
      (if truthy st then ofl else ofl + 1)
      (applyWrites reg (WorkerMonitorThread.workerEntryWrites flower_host hn e))
    have hst : statusOf e = st := by simp [statusOf, hs]
    refine ⟨?_, ?_, ?_⟩
    · simp only [WorkerMonitorThread.convertWorkerEntries, hh, hs]
      exact hf
    · simp only [WorkerMonitorThread.convertWorkerEntries, hh, hs]
      rw [applyWrites_append, hon, onCount_cons, hst]
      cases truthy st <;> simp <;> omega
    · simp only [WorkerMonitorThread.convertWorkerEntries, hh, hs]
      rw [applyWrites_append, hoff, offCount_cons, hst]
      cases truthy st <;> simp <;> omega

/-- An entry missing `hostname` or `status` makes the worker loop raise
`KeyError`. -/
theorem convertWorkerEntries_fault (flower_host : String) :
    ∀ (es : List JObj) (online offline : Nat),
      (∃ e ∈ es, dget e "hostname" = none ∨ dget e "status" = none) →
      ((WorkerMonitorThread.convertWorkerEntries flower_host es online offline).2).isSome := by
  intro es
  induction es with
  | nil => intro _ _ h; obtain ⟨e, he, _⟩ := h; simp at he
  | cons e rest ih =>
    intro onl ofl h
    cases hh : dget e "hostname" with
    | none => simp [WorkerMonitorThread.convertWorkerEntries, hh]
    | some hn =>
      cases hs : dget e "status" with
      | none => simp [WorkerMonitorThread.convertWorkerEntries, hh, hs]
      | some st =>
        obtain ⟨x, hx, hbad⟩ := h
        rcases List.mem_cons.mp hx with rfl | hx2
        · rcases hbad with hb | hb
          · rw [hh] at hb; cases hb
          · rw [hs] at hb; cases hb
        · have hrest := ih (if truthy st then onl + 1 else onl)
            (if truthy st then ofl else ofl + 1) ⟨x, hx2, hbad⟩
          simp only [WorkerMonitorThread.convertWorkerEntries, hh, hs]
          exact hrest

/-- For each entry of a well-formed list, each of the seven per-worker gauge
writes (with the `w_info.get(key, 0)` default) occurs in the loop's writes. -/
theorem convertWorkerEntries_counter_writes (flower_host : String) :
    ∀ (es : List JObj), (∀ e ∈ es, wfWorker e) →
    ∀ (online offline : Nat) (w_info : JObj) (hn : JVal),
      w_info ∈ es → dget w_info "hostname" = some hn →
      ∀ ks ∈ WorkerMonitorThread.counterKeys,
        (⟨.tasksWorker flower_host hn ks.2, (dget w_info ks.1).getD (.num 0)⟩ : Write)
          ∈ (WorkerMonitorThread.convertWorkerEntries flower_host es online offline).1 := by
  intro es
  induction es with
  | nil => intro _ _ _ w_info _ hmem _ _ _; simp at hmem
  | cons e rest ih =>
    intro hwf onl ofl w_info hn hmem hhn ks hks
    obtain ⟨hhs, hss⟩ := hwf e (List.mem_cons_self _ _)
    obtain ⟨hn0, hh⟩ := Option.isSome_iff_exists.mp hhs
    obtain ⟨st, hs⟩ := Option.isSome_iff_exists.mp hss
    have hwfr : ∀ x ∈ rest, wfWorker x := fun x hx => hwf x (List.mem_cons_of_mem _ hx)
    simp only [WorkerMonitorThread.convertWorkerEntries, hh, hs, List.mem_append]
    rcases List.mem_cons.mp hmem with rfl | hmem2
    · left
      have : hn0 = hn := by rw [hh] at hhn; exact Option.some.inj hhn
      subst this
      exact List.mem_map.mpr ⟨ks, hks, rfl⟩
    · right
      exact ih hwfr _ _ w_info hn hmem2 hhn ks hks

/-- On a well-formed entry list the queue publish step performs exactly one
write per entry, in order, and no fault. -/
theorem convertQueueEntries_eq_map (flower_host : String) :
    ∀ (es : List JObj),
      (∀ e ∈ es, (dget e "name").isSome ∧ (dget e "messages").isSome) →
      QueueMonitorThread.convertQueueEntries flower_host es =
        (es.map (fun e => ⟨.queue flower_host ((dget e "name").getD .null),
          (dget e "messages").getD .null⟩), none) := by
  intro es
  induction es with
  | nil => intro _; rfl
  | cons q rest ih =>
    intro hwf
    obtain ⟨hns, hms⟩ := hwf q (List.mem_cons_self _ _)
    obtain ⟨nm, hn⟩ := Option.isSome_iff_exists.mp hns
    obtain ⟨ms, hm⟩ := Option.isSome_iff_exists.mp hms
    have hrest := ih (fun x hx => hwf x (List.mem_cons_of_mem _ hx))
    simp only [QueueMonitorThread.convertQueueEntries, hn, hm, hrest, List.map_cons]
    simp [hn, hm]

/-! ### The claims -/

/-- Claim C2: for a queue-length payload with `active_queues` present and
well-formed, each entry produces exactly one `celery_tasks_by_queue` write at
`{flower: host, queue: name}` with value `messages` (the publish step is the
entry-wise map, with no fault); with `active_queues` absent, the publish step
performs no writes at all and leaves the registry unchanged. -/
theorem claim_C2 (flower_host : String) (es : List JObj)
    (hwf : ∀ e ∈ es, (dget e "name").isSome ∧ (dget e "messages").isSome)
    (reg : Registry) :
    QueueMonitorThread.convert_data_to_prometheus flower_host ⟨some es⟩ =
      (es.map (fun e => ⟨.queue flower_host ((dget e "name").getD .null),
        (dget e "messages").getD .null⟩), none) ∧
    (QueueMonitorThread.convert_data_to_prometheus flower_host ⟨some es⟩).1.length =
      es.length ∧
    QueueMonitorThread.convert_data_to_prometheus flower_host ⟨none⟩ = ([], none) ∧
    applyWrites reg (QueueMonitorThread.convert_data_to_prometheus flower_host ⟨none⟩).1 =
      reg := by
  have h := convertQueueEntries_eq_map flower_host es hwf
  exact ⟨h, by simp [QueueMonitorThread.convert_data_to_prometheus, h], rfl, rfl⟩

theorem claim_C2_witness :
    (∀ e ∈ ([[("name", JVal.str "celery"), ("messages", JVal.num 3)]] : List JObj),
      (dget e "name").isSome ∧ (dget e "messages").isSome) ∧
    QueueMonitorThread.convert_data_to_prometheus "http://fl1"
        ⟨some [[("name", JVal.str "celery"), ("messages", JVal.num 3)]]⟩ =
      (([[("name", JVal.str "celery"), ("messages", JVal.num 3)]] : List JObj).map
        (fun e => ⟨.queue "http://fl1" ((dget e "name").getD .null),
          (dget e "messages").getD .null⟩), none) ∧
    QueueMonitorThread.convert_data_to_prometheus "http://fl1" ⟨none⟩ = ([], none) :=
  ⟨by decide,
   (claim_C2 "http://fl1" _ (by decide) sampleRegistry).1,
   (claim_C2 "http://fl1" [] (by decide) sampleRegistry).2.2.1⟩

/-- Claim C3: on a well-formed dashboard payload the worker publish step
completes without fault and writes `celery_workers{status: online}` and
`celery_workers{status: offline}` values summing to the number of entries,
an entry counting as online exactly when its `status` is truthy. -/
theorem claim_C3 (flower_host : String) (d : DashboardPayload)
    (hwf : ∀ e ∈ d.data.getD [], wfWorker e) (reg : Registry) :
    (WorkerMonitorThread.convert_data_to_prometheus flower_host d).2 = none ∧
    applyWrites reg (WorkerMonitorThread.convert_data_to_prometheus flower_host d).1
      (.workers flower_host "online") = some (.num (onCount (d.data.getD []))) ∧
    applyWrites reg (WorkerMonitorThread.convert_data_to_prometheus flower_host d).1
      (.workers flower_host "offline") = some (.num (offCount (d.data.getD []))) ∧
    onCount (d.data.getD []) + offCount (d.data.getD []) = (d.data.getD []).length := by
  obtain ⟨hf, hon, hoff⟩ := convertWorkerEntries_ok flower_host _ hwf 0 0 reg
  exact ⟨hf, by simpa using hon, by simpa using hoff, onCount_add_offCount _⟩

theorem claim_C3_witness :
    (∀ e ∈ ((⟨some [[("hostname", JVal.str "w1"), ("status", JVal.bool true)],
        [("hostname", JVal.str "w2"), ("status", JVal.bool false)]]⟩ :
        DashboardPayload).data.getD []), wfWorker e) ∧
    applyWrites sampleRegistry
      (WorkerMonitorThread.convert_data_to_prometheus "http://fl1"
        ⟨some [[("hostname", JVal.str "w1"), ("status", JVal.bool true)],
          [("hostname", JVal.str "w2"), ("status", JVal.bool false)]]⟩).1
      (.workers "http://fl1" "online") =
      some (.num (onCount ([[("hostname", JVal.str "w1"), ("status", JVal.bool true)],
        [("hostname", JVal.str "w2"), ("status", JVal.bool false)]] : List JObj))) :=
  ⟨by decide,
   (claim_C3 "http://fl1"
     ⟨some [[("hostname", JVal.str "w1"), ("status", JVal.bool true)],
       [("hostname", JVal.str "w2"), ("status", JVal.bool false)]]⟩
     (by decide) sampleRegistry).2.1⟩

/-- Claim C9: a dashboard payload with an absent or empty `data` key still
produces exactly two writes, setting both `celery_workers` series to 0,
whereas the queue publish step produces no writes for an absent key. -/
theorem claim_C9 (flower_host : String) :
    WorkerMonitorThread.convert_data_to_prometheus flower_host ⟨none⟩ =
      ([⟨.workers flower_host "online", .num 0⟩,
        ⟨.workers flower_host "offline", .num 0⟩], none) ∧
    WorkerMonitorThread.convert_data_to_prometheus flower_host ⟨some []⟩ =
      ([⟨.workers flower_host "online", .num 0⟩,
        ⟨.workers flower_host "offline", .num 0⟩], none) ∧
    (WorkerMonitorThread.convert_data_to_prometheus flower_host ⟨none⟩).1.length = 2 ∧
    QueueMonitorThread.convert_data_to_prometheus flower_host ⟨none⟩ = ([], none) :=
  ⟨rfl, rfl, rfl, rfl⟩

/-- Claim C10: the online/offline classification of an entry with a `status`
field depends only on the Python truthiness of its value: no fault occurs for
non-boolean values, a truthy value counts as online and a falsy one as
offline; in particular `null`, `false`, `0` and `""` are falsy. -/
theorem claim_C10 (flower_host : String) (hn v : JVal) (reg : Registry) :
    (WorkerMonitorThread.convert_data_to_prometheus flower_host
      ⟨some [[("hostname", hn), ("status", v)]]⟩).2 = none ∧
    applyWrites reg (WorkerMonitorThread.convert_data_to_prometheus flower_host
      ⟨some [[("hostname", hn), ("status", v)]]⟩).1
      (.workers flower_host "online") = some (.num (if truthy v then 1 else 0)) ∧
    applyWrites reg (WorkerMonitorThread.convert_data_to_prometheus flower_host
      ⟨some [[("hostname", hn), ("status", v)]]⟩).1
      (.workers flower_host "offline") = some (.num (if truthy v then 0 else 1)) ∧
    truthy .null = false ∧ truthy (.bool false) = false ∧
    truthy (.num 0) = false ∧ truthy (.str "") = false := by
  have hst : statusOf [("hostname", hn), ("status", v)] = v := rfl
  have hwf : ∀ e ∈ [[("hostname", hn), ("status", v)]], wfWorker e := by
    intro e he
    rw [List.mem_singleton] at he
    subst he
    exact ⟨rfl, rfl⟩
  obtain ⟨hf, hon, hoff⟩ := convertWorkerEntries_ok flower_host _ hwf 0 0 reg
  have hcnt : onCount [[("hostname", hn), ("status", v)]] = if truthy v then 1 else 0 := by
    rw [onCount_cons, hst]
    cases truthy v <;> simp [onCount]
  have hcnt2 : offCount [[("hostname", hn), ("status", v)]] = if truthy v then 0 else 1 := by
    rw [offCount_cons, hst]
    cases truthy v <;> simp [offCount]
  refine ⟨hf, ?_, ?_, rfl, rfl, rfl, rfl⟩
  · rw [show (WorkerMonitorThread.convert_data_to_prometheus flower_host
      ⟨some [[("hostname", hn), ("status", v)]]⟩).1 =
      (WorkerMonitorThread.convertWorkerEntries flower_host
        [[("hostname", hn), ("status", v)]] 0 0).1 from rfl, hon, hcnt]
    simp
  · rw [show (WorkerMonitorThread.convert_data_to_prometheus flower_host
      ⟨some [[("hostname", hn), ("status", v)]]⟩).1 =
      (WorkerMonitorThread.convertWorkerEntries flower_host
        [[("hostname", hn), ("status", v)]] 0 0).1 from rfl, hoff, hcnt2]
    simp

/-- Claim C5: a cycle whose GET raises a connection error performs no gauge
writes, logs an error, sleeps 5 seconds and lets the loop continue; a cycle
whose GET returns a non-200 status performs no gauge writes, logs an error,
sleeps 1 second and lets the loop continue; in both cases the registry is
untouched and the loop proceeds to the next cycle. -/
theorem claim_C5 {α : Type} (convert : α → List Write × Option Fault)
    (reg : Registry) (status_code : Nat) (body : α)
    (rest : List (FetchResult α)) (hcode : status_code ≠ 200) :
    MonitorThread.cycle convert FetchResult.connectionError reg =
      ⟨reg, 5, true, none⟩ ∧
    MonitorThread.cycle convert (.response status_code body) reg =
      ⟨reg, 1, true, none⟩ ∧
    MonitorThread.get_metrics convert (FetchResult.connectionError :: rest) reg =
      MonitorThread.get_metrics convert rest reg ∧
    MonitorThread.get_metrics convert (.response status_code body :: rest) reg =
      MonitorThread.get_metrics convert rest reg := by
  have hb : (status_code != 200) = true := by simpa using hcode
  have h1 : MonitorThread.cycle convert (FetchResult.connectionError (α := α)) reg =
      ⟨reg, 5, true, none⟩ := rfl
  have h2 : MonitorThread.cycle convert (.response status_code body) reg =
      ⟨reg, 1, true, none⟩ := by
    simp [MonitorThread.cycle, hb]
  refine ⟨h1, h2, ?_, ?_⟩
  · simp [MonitorThread.get_metrics, h1]
  · simp [MonitorThread.get_metrics, h2]

theorem claim_C5_witness :
    (500 : Nat) ≠ 200 ∧
    MonitorThread.cycle (QueueMonitorThread.convert_data_to_prometheus "http://fl1")
      FetchResult.connectionError sampleRegistry = ⟨sampleRegistry, 5, true, none⟩ ∧
    MonitorThread.cycle (QueueMonitorThread.convert_data_to_prometheus "http://fl1")
      (.response 500 ⟨none⟩) sampleRegistry = ⟨sampleRegistry, 1, true, none⟩ :=
  ⟨by decide,
   (claim_C5 (QueueMonitorThread.convert_data_to_prometheus "http://fl1")
     sampleRegistry 500 ⟨none⟩ [] (by decide)).1,
   (claim_C5 (QueueMonitorThread.convert_data_to_prometheus "http://fl1")
     sampleRegistry 500 ⟨none⟩ [] (by decide)).2.1⟩

/-- Claim C6: a worker entry lacking `status` (or `hostname`) makes the
publish step raise a `KeyError` which `get_metrics` does not catch, so the
loop returns with that fault and the thread dies; by contrast, entries in
which only counter fields are missing (`wfWorker`: `hostname` and `status`
present) never fault — required-field access is the only faulting pattern. -/
theorem claim_C6 (flower_host : String) (d : DashboardPayload) (w_info : JObj)
    (hmem : w_info ∈ d.data.getD [])
    (hbad : dget w_info "hostname" = none ∨ dget w_info "status" = none) :
    ((WorkerMonitorThread.convert_data_to_prometheus flower_host d).2).isSome ∧
    (∀ (rest : List (FetchResult DashboardPayload)) (reg : Registry),
      ((MonitorThread.get_metrics
        (WorkerMonitorThread.convert_data_to_prometheus flower_host)
        (FetchResult.response 200 d :: rest) reg).2).isSome) ∧
    (∀ es : List JObj, (∀ e ∈ es, wfWorker e) →
      (WorkerMonitorThread.convertWorkerEntries flower_host es 0 0).2 = none) := by
  have h := convertWorkerEntries_fault flower_host (d.data.getD []) 0 0
    ⟨w_info, hmem, hbad⟩
  refine ⟨h, ?_, ?_⟩
  · intro rest reg
    obtain ⟨f, hf⟩ := Option.isSome_iff_exists.mp h
    have hc : (MonitorThread.cycle
        (WorkerMonitorThread.convert_data_to_prometheus flower_host)
        (FetchResult.response 200 d) reg).fault = some f := by
      simp [MonitorThread.cycle]
      exact hf
    simp [MonitorThread.get_metrics, hc]
  · intro es hwf
    exact (convertWorkerEntries_ok flower_host es hwf 0 0 (fun _ => none)).1

theorem claim_C6_witness :
    ([("hostname", JVal.str "w1")] : JObj) ∈
      ((⟨some [[("hostname", JVal.str "w1")]]⟩ : DashboardPayload).data.getD []) ∧
    (dget [("hostname", JVal.str "w1")] "status" = none) ∧
    ((WorkerMonitorThread.convert_data_to_prometheus "http://fl1"
      ⟨some [[("hostname", JVal.str "w1")]]⟩).2).isSome :=
  ⟨by decide, by decide,
   (claim_C6 "http://fl1" ⟨some [[("hostname", JVal.str "w1")]]⟩
     [("hostname", JVal.str "w1")] (by decide) (Or.inr (by decide))).1⟩

/-- Claim C4: `setup_metrics` runs once at poller initialization, before the
fetch loop; it sets every previously existing label combination of that
poller's gauge families to 0, so before any fetch those series all read 0
(`runQueueMonitorThread` / `runWorkerMonitorThread` with no fetch outcomes
leave the registry exactly at the reset state). -/
theorem claim_C4 (flower_host : String) (reg : Registry) :
    (∀ (f : String) (q : JVal), (reg (.queue f q)).isSome →
      QueueMonitorThread.setup_metrics reg (.queue f q) = some (.num 0)) ∧
    (∀ (f s : String), (reg (.workers f s)).isSome →
      WorkerMonitorThread.setup_metrics reg (.workers f s) = some (.num 0)) ∧
    (∀ (f : String) (wk : JVal) (s : String), (reg (.tasksWorker f wk s)).isSome →
      WorkerMonitorThread.setup_metrics reg (.tasksWorker f wk s) = some (.num 0)) ∧
    runQueueMonitorThread flower_host [] reg =
      (QueueMonitorThread.setup_metrics reg, none) ∧
    runWorkerMonitorThread flower_host [] reg =
      (WorkerMonitorThread.setup_metrics reg, none) ∧
    (∀ (f : String) (q : JVal), (reg (.queue f q)).isSome →
      (runQueueMonitorThread flower_host [] reg).1 (.queue f q) = some (.num 0)) ∧
    (∀ (f s : String), (reg (.workers f s)).isSome →
      (runWorkerMonitorThread flower_host [] reg).1 (.workers f s) = some (.num 0)) ∧
    (∀ (f : String) (wk : JVal) (s : String), (reg (.tasksWorker f wk s)).isSome →
      (runWorkerMonitorThread flower_host [] reg).1 (.tasksWorker f wk s) =
        some (.num 0)) := by
  have hq : ∀ (f : String) (q : JVal), (reg (.queue f q)).isSome →
      QueueMonitorThread.setup_metrics reg (.queue f q) = some (.num 0) := by
    intro f q h
    simp [QueueMonitorThread.setup_metrics, h]
  have hw : ∀ (f s : String), (reg (.workers f s)).isSome →
      WorkerMonitorThread.setup_metrics reg (.workers f s) = some (.num 0) := by
    intro f s h
    simp [WorkerMonitorThread.setup_metrics, h]
  have htw : ∀ (f : String) (wk : JVal) (s : String),
      (reg (.tasksWorker f wk s)).isSome →
      WorkerMonitorThread.setup_metrics reg (.tasksWorker f wk s) = some (.num 0) := by
    intro f wk s h
    simp [WorkerMonitorThread.setup_metrics, h]
  exact ⟨hq, hw, htw, rfl, rfl, hq, hw, htw⟩

theorem claim_C4_witness :
    (sampleRegistry (.queue "http://fl1" (.str "celery"))).isSome ∧
    (sampleRegistry (.workers "http://fl1" "online")).isSome ∧
    (sampleRegistry (.tasksWorker "http://fl1" (.str "w1") "failed")).isSome ∧
    (runQueueMonitorThread "http://fl2" [] sampleRegistry).1
      (.queue "http://fl1" (.str "celery")) = some (.num 0) ∧
    (runWorkerMonitorThread "http://fl2" [] sampleRegistry).1
      (.workers "http://fl1" "online") = some (.num 0) ∧
    (runWorkerMonitorThread "http://fl2" [] sampleRegistry).1
      (.tasksWorker "http://fl1" (.str "w1") "failed") = some (.num 0) :=
  ⟨by decide, by decide, by decide,
   (claim_C4 "http://fl2" sampleRegistry).2.2.2.2.2.1 "http://fl1" (.str "celery")
     (by decide),
   (claim_C4 "http://fl2" sampleRegistry).2.2.2.2.2.2.1 "http://fl1" "online"
     (by decide),
   (claim_C4 "http://fl2" sampleRegistry).2.2.2.2.2.2.2 "http://fl1" (.str "w1")
     "failed" (by decide)⟩

/-- Claim C7: a publish step leaves untouched every series whose labels name
an entity absent from the current response: a `celery_tasks_by_queue` series
whose queue name is no entry's `name` keeps its prior value, and a
`celery_tasks_by_worker` series whose worker is no entry's `hostname` keeps
its prior value. -/
theorem claim_C7 (flower_host : String) (reg : Registry) :
    (∀ (d : QueuePayload) (f : String) (q : JVal),
      (∀ e ∈ d.active_queues.getD [], dget e "name" ≠ some q) →
      applyWrites reg (QueueMonitorThread.convert_data_to_prometheus flower_host d).1
        (.queue f q) = reg (.queue f q)) ∧
    (∀ (d : DashboardPayload) (f : String) (wk : JVal) (s : String),
      (∀ e ∈ d.data.getD [], dget e "hostname" ≠ some wk) →
      applyWrites reg (WorkerMonitorThread.convert_data_to_prometheus flower_host d).1
        (.tasksWorker f wk s) = reg (.tasksWorker f wk s)) := by
  constructor
  · intro d f q habs
    rw [applyWrites_lookup]
    have hnone : writeMap
        (QueueMonitorThread.convert_data_to_prometheus flower_host d).1
        (.queue f q) = none := by
      apply writeMap_eq_none
      intro w hw
      obtain ⟨e, he, nm, hnm, hl⟩ := convertQueueEntries_shape flower_host _ w hw
      rw [hl]
      intro hcon
      injection hcon with hfl hqq
      exact habs e he (hqq ▸ hnm)
    rw [hnone]
    rfl
  · intro d f wk s habs
    rw [applyWrites_lookup]
    have hnone : writeMap
        (WorkerMonitorThread.convert_data_to_prometheus flower_host d).1
        (.tasksWorker f wk s) = none := by
      apply writeMap_eq_none
      intro w hw
      rcases convertWorkerEntries_shape flower_host _ 0 0 w hw with
        ⟨s2, hl⟩ | ⟨e, he, hn, s2, hd, hl⟩
      · rw [hl]; intro hcon; cases hcon
      · rw [hl]
        intro hcon
        injection hcon with hfl hww hss
        exact habs e he (hww ▸ hd)
    rw [hnone]
    rfl

theorem claim_C7_witness :
    (∀ e ∈ ((⟨some [[("name", JVal.str "celery"), ("messages", JVal.num 3)]]⟩ :
        QueuePayload).active_queues.getD []),
      dget e "name" ≠ some (JVal.str "gone")) ∧
    applyWrites sampleRegistry
      (QueueMonitorThread.convert_data_to_prometheus "http://fl1"
        ⟨some [[("name", JVal.str "celery"), ("messages", JVal.num 3)]]⟩).1
      (.queue "http://fl1" (.str "gone")) =
      sampleRegistry (.queue "http://fl1" (.str "gone")) ∧
    applyWrites sampleRegistry
      (WorkerMonitorThread.convert_data_to_prometheus "http://fl1"
        ⟨some [[("hostname", JVal.str "w2"), ("status", JVal.bool true)]]⟩).1
      (.tasksWorker "http://fl1" (.str "w1") "failed") =
      sampleRegistry (.tasksWorker "http://fl1" (.str "w1") "failed") :=
  ⟨by decide,
   (claim_C7 "http://fl1" sampleRegistry).1
     ⟨some [[("name", JVal.str "celery"), ("messages", JVal.num 3)]]⟩
     "http://fl1" (.str "gone") (by decide),
   (claim_C7 "http://fl1" sampleRegistry).2
     ⟨some [[("hostname", JVal.str "w2"), ("status", JVal.bool true)]]⟩
     "http://fl1" (.str "w1") "failed" (by decide)⟩

/-- Claim C8: every registry update of a publish step is an absolute
overwrite (`setG` stores exactly the given value), so applying a poller's
publish step twice with the same payload equals applying it once, and the
publish steps of two pollers with distinct host strings commute (every write
carries the poller's own host as the `flower` label, so their label sets are
disjoint). -/
theorem claim_C8 (k1 k2 : PollerKind) (h1 h2 : String)
    (p1 p2 : Option (List JObj)) (reg : Registry) (hne : h1 ≠ h2) :
    (∀ (l : Labels) (v : JVal), setG reg l v l = some v) ∧
    applyWrites (applyWrites reg (pollerWrites k1 h1 p1).1) (pollerWrites k1 h1 p1).1 =
      applyWrites reg (pollerWrites k1 h1 p1).1 ∧
    applyWrites (applyWrites reg (pollerWrites k1 h1 p1).1) (pollerWrites k2 h2 p2).1 =
      applyWrites (applyWrites reg (pollerWrites k2 h2 p2).1) (pollerWrites k1 h1 p1).1 :=
  ⟨fun l v => by simp [setG],
   applyWrites_idem _ _,
   applyWrites_comm_of_flower reg _ _ h1 h2 hne
     (pollerWrites_flower k1 h1 p1) (pollerWrites_flower k2 h2 p2)⟩

theorem claim_C8_witness :
    ("http://fl1" : String) ≠ "http://fl2" ∧
    applyWrites
      (applyWrites sampleRegistry
        (pollerWrites .queue "http://fl1"
          (some [[("name", JVal.str "celery"), ("messages", JVal.num 3)]])).1)
      (pollerWrites .queue "http://fl1"
        (some [[("name", JVal.str "celery"), ("messages", JVal.num 3)]])).1 =
      applyWrites sampleRegistry
        (pollerWrites .queue "http://fl1"
          (some [[("name", JVal.str "celery"), ("messages", JVal.num 3)]])).1 ∧
    applyWrites
      (applyWrites sampleRegistry
        (pollerWrites .queue "http://fl1"
          (some [[("name", JVal.str "celery"), ("messages", JVal.num 3)]])).1)
      (pollerWrites .worker "http://fl2"
        (some [[("hostname", JVal.str "w1"), ("status", JVal.bool true)]])).1 =
      applyWrites
        (applyWrites sampleRegistry
          (pollerWrites .worker "http://fl2"
            (some [[("hostname", JVal.str "w1"), ("status", JVal.bool true)]])).1)
        (pollerWrites .queue "http://fl1"
          (some [[("name", JVal.str "celery"), ("messages", JVal.num 3)]])).1 :=
  ⟨by decide,
   (claim_C8 .queue .worker "http://fl1" "http://fl2"
     (some [[("name", JVal.str "celery"), ("messages", JVal.num 3)]])
     (some [[("hostname", JVal.str "w1"), ("status", JVal.bool true)]])
     sampleRegistry (by decide)).2.1,
   (claim_C8 .queue .worker "http://fl1" "http://fl2"
     (some [[("name", JVal.str "celery"), ("messages", JVal.num 3)]])
     (some [[("hostname", JVal.str "w1"), ("status", JVal.bool true)]])
     sampleRegistry (by decide)).2.2⟩

/-- Claim C1 as frozen is false on the code: the worker publish step sets
seven per-worker task-count gauges per entry, not six — shown at the
concrete payload `{"data": [{"hostname": "w1", "status": true}]}`, whose
`celery_tasks_by_worker` writes number exactly 7. -/
theorem claim_C1_counterexample :
    ((WorkerMonitorThread.convert_data_to_prometheus "http://fl1"
      ⟨some [[("hostname", JVal.str "w1"), ("status", JVal.bool true)]]⟩).1.filter
      isTasksWorkerWrite).length ≠ 6 ∧
    ((WorkerMonitorThread.convert_data_to_prometheus "http://fl1"
      ⟨some [[("hostname", JVal.str "w1"), ("status", JVal.bool true)]]⟩).1.filter
      isTasksWorkerWrite).length = 7 := by
  constructor <;> decide

/-- Claim C1 (amended: seven gauges, not six): for every well-formed
dashboard payload and every worker entry in its `data` sequence, the publish
step writes the seven per-worker task-count gauges (received, started,
failed, retried, succeeded, processed, active) on `celery_tasks_by_worker`
at `{flower: host, worker: hostname, status: counter-name}`, and each
counter field missing from the entry yields a write of 0, not an unset
series. -/
theorem claim_C1 (flower_host : String) (d : DashboardPayload)
    (hwf : ∀ e ∈ d.data.getD [], wfWorker e) (w_info : JObj) (hn : JVal)
    (hmem : w_info ∈ d.data.getD []) (hhn : dget w_info "hostname" = some hn) :
    (∀ ks ∈ WorkerMonitorThread.counterKeys,
      (⟨.tasksWorker flower_host hn ks.2, (dget w_info ks.1).getD (.num 0)⟩ : Write)
        ∈ (WorkerMonitorThread.convert_data_to_prometheus flower_host d).1 ∧
      (dget w_info ks.1 = none →
        (⟨.tasksWorker flower_host hn ks.2, .num 0⟩ : Write)
          ∈ (WorkerMonitorThread.convert_data_to_prometheus flower_host d).1)) ∧
    WorkerMonitorThread.counterKeys.map Prod.snd =
      ["received", "started", "failed", "retried", "succeeded", "processed",
        "active"] ∧
    WorkerMonitorThread.counterKeys.length = 7 := by
  refine ⟨?_, rfl, rfl⟩
  intro ks hks
  have hm := convertWorkerEntries_counter_writes flower_host _ hwf 0 0 w_info hn
    hmem hhn ks hks
  refine ⟨hm, ?_⟩
  intro hnone
  rw [hnone] at hm
  exact hm

theorem claim_C1_witness :
    (∀ e ∈ ((⟨some [[("hostname", JVal.str "w1"), ("status", JVal.bool true),
        ("task-succeeded", JVal.num 5)]]⟩ : DashboardPayload).data.getD []),
      wfWorker e) ∧
    dget [("hostname", JVal.str "w1"), ("status", JVal.bool true),
      ("task-succeeded", JVal.num 5)] "hostname" = some (JVal.str "w1") ∧
    (∀ ks ∈ WorkerMonitorThread.counterKeys,
      (⟨.tasksWorker "http://fl1" (JVal.str "w1") ks.2,
        (dget [("hostname", JVal.str "w1"), ("status", JVal.bool true),
          ("task-succeeded", JVal.num 5)] ks.1).getD (.num 0)⟩ : Write)
        ∈ (WorkerMonitorThread.convert_data_to_prometheus "http://fl1"
          ⟨some [[("hostname", JVal.str "w1"), ("status", JVal.bool true),
            ("task-succeeded", JVal.num 5)]]⟩).1 ∧
      (dget [("hostname", JVal.str "w1"), ("status", JVal.bool true),
        ("task-succeeded", JVal.num 5)] ks.1 = none →
        (⟨.tasksWorker "http://fl1" (JVal.str "w1") ks.2, .num 0⟩ : Write)
          ∈ (WorkerMonitorThread.convert_data_to_prometheus "http://fl1"
            ⟨some [[("hostname", JVal.str "w1"), ("status", JVal.bool true),
              ("task-succeeded", JVal.num 5)]]⟩).1)) :=
  ⟨by decide, by decide,
   (claim_C1 "http://fl1"
     ⟨some [[("hostname", JVal.str "w1"), ("status", JVal.bool true),
       ("task-succeeded", JVal.num 5)]]⟩ (by decide)
     [("hostname", JVal.str "w1"), ("status", JVal.bool true),
       ("task-succeeded", JVal.num 5)] (JVal.str "w1") (by decide) (by decide)).1⟩

end Monitors
